import Mathlib

/-!
Verification of the StaffOS scheduling application (app.py / streamlit_app.py).

The Python sources are shallowly embedded: each table row becomes a Lean
structure, each collection a `List`, datetimes become integer seconds since
the Unix epoch (pandas `Timestamp` at second resolution), dates become
`PDate` triples, Python `datetime.date` / `relativedelta` / `timedelta`
arithmetic becomes explicit functions on those, and the SQL helpers
(`upsert`, `delete_by_id`, select-by-key) become list operations.
-/

/-! ## Record store primitives (app.py: upsert / select-by-key) -/

/-- Embedding of `upsert(conn, table, row, key)` from app.py: it first selects
a row whose `key` column equals `row[key]`; if one exists it runs
`UPDATE ... WHERE key = row[key]` replacing every matching row in full,
otherwise it runs `INSERT`, which appends the row. -/
def upsert {α : Type} (key : α → String) (row : α) (l : List α) : List α :=
  if l.any (fun x => decide (key x = key row)) then
    l.map (fun x => if key x = key row then row else x)
  else
    l ++ [row]

/-- Embedding of `conn.execute(select(table).where(table.c[key] == value)).first()`:
the first row whose key column equals `value`. -/
def getByKey {α : Type} (key : α → String) (value : String) (l : List α) : Option α :=
  l.find? (fun x => decide (key x = value))

/-- Embedding of `generate_id(prefix)` from app.py: the prefix, an underscore,
and the `%Y%m%d%H%M%S%f`-formatted current UTC time; the formatted clock
reading is the `ts` argument. -/
def generate_id (pre ts : String) : String :=
  pre ++ "_" ++ ts

theorem getByKey_map_update {α : Type} (key : α → String) (row : α) (l : List α) :
    getByKey key (key row) (l.map (fun x => if key x = key row then row else x)) =
      if l.any (fun x => decide (key x = key row)) then some row else none := by
  induction l with
  | nil => rfl
  | cons x xs ih =>
    by_cases h : key x = key row
    · simp [getByKey, List.find?_cons, h]
    · simpa [getByKey, List.find?_cons, h] using ih

theorem getByKey_upsert_self {α : Type} (key : α → String) (row : α) (l : List α) :
    getByKey key (key row) (upsert key row l) = some row := by
  unfold upsert
  split
  · next h => rw [getByKey_map_update, if_pos h]
  · next h =>
    have hnone : l.find? (fun x => decide (key x = key row)) = none := by
      rw [List.find?_eq_none]
      intro x hx
      simp only [decide_eq_true_eq]
      intro hk
      exact h (List.any_eq_true.mpr ⟨x, hx, by simp [hk]⟩)
    simp [getByKey, List.find?_append, hnone]

theorem find?_map_update_ne {α : Type} (key : α → String) (row : α) (l : List α)
    (k : String) (hk : k ≠ key row) :
    (l.map (fun x => if key x = key row then row else x)).find? (fun x => decide (key x = k)) =
      l.find? (fun x => decide (key x = k)) := by
  induction l with
  | nil => rfl
  | cons x xs ih =>
    by_cases h : key x = key row
    · have h1 : ¬ key row = k := fun hh => hk hh.symm
      have h2 : ¬ key x = k := by rw [h]; exact h1
      simp [List.find?_cons, h, h1, h2, ih]
    · by_cases h2 : key x = k
      · simp [List.find?_cons, h, h2, hk]
      · simp [List.find?_cons, h, h2, hk, ih]

theorem getByKey_upsert_ne {α : Type} (key : α → String) (row : α) (l : List α)
    (k : String) (hk : k ≠ key row) :
    getByKey key k (upsert key row l) = getByKey key k l := by
  unfold upsert getByKey
  split
  · exact find?_map_update_ne key row l k hk
  · have hlast : List.find? (fun x => decide (key x = k)) [row] = none := by
      simp [List.find?_cons, hk.symm]
    rw [List.find?_append, hlast, Option.or_none]

theorem upsert_idem {α : Type} (key : α → String) (row : α) (l : List α) :
    upsert key row (upsert key row l) = upsert key row l := by
  unfold upsert
  split
  · next h =>
    have hany : (l.map (fun x => if key x = key row then row else x)).any
        (fun x => decide (key x = key row)) = true := by
      rcases List.any_eq_true.mp h with ⟨x, hx, hpx⟩
      refine List.any_eq_true.mpr ⟨row, ?_, by simp⟩
      refine List.mem_map.mpr ⟨x, hx, ?_⟩
      simp only [decide_eq_true_eq] at hpx
      simp [hpx]
    rw [if_pos hany, List.map_map]
    refine List.map_congr_left ?_
    intro x _
    by_cases hx : key x = key row <;> simp [hx]
  · next h =>
    have hany : (l ++ [row]).any (fun x => decide (key x = key row)) = true := by
      refine List.any_eq_true.mpr ⟨row, by simp, by simp⟩
    rw [if_pos hany, List.map_append]
    have hl : l.map (fun x => if key x = key row then row else x) = l := by
      refine List.map_congr_left ?_ |>.trans l.map_id
      intro x hx
      have : ¬ key x = key row := by
        intro hkx
        exact h (List.any_eq_true.mpr ⟨x, hx, by simp [hkx]⟩)
      simp [this]
    simp [hl]

theorem upsert_of_absent {α : Type} (key : α → String) (row : α) (l : List α)
    (h : l.all (fun x => decide (key x ≠ key row)) = true) :
    upsert key row l = l ++ [row] := by
  unfold upsert
  have hany : l.any (fun x => decide (key x = key row)) = false := by
    rw [List.any_eq_false]
    intro x hx
    have := List.all_eq_true.mp h x hx
    simpa using this
  rw [hany]
  simp

/-! ## Calendar model (Python `date`, `relativedelta`, `timedelta`) -/

/-- A Python `datetime.date` value: a (year, month, day) triple. -/
structure PDate where
  year : Int
  month : Int
  day : Int
  deriving DecidableEq, Repr

/-- Gregorian leap-year rule, as implemented by Python's `calendar`/`datetime`. -/
def isLeap (y : Int) : Bool :=
  (y % 4 == 0 && y % 100 != 0) || (y % 400 == 0)

/-- Number of days in a (year, month) of the Gregorian calendar. -/
def daysInMonth (y m : Int) : Int :=
  if m = 2 then (if isLeap y then 29 else 28)
  else if m = 4 ∨ m = 6 ∨ m = 9 ∨ m = 11 then 30
  else 31

/-- Embedding of `d + relativedelta(months=1)`: advance the month (rolling the
year over after December) and clamp the day to the target month's length. -/
def addMonths1 (d : PDate) : PDate :=
  if d.month = 12 then ⟨d.year + 1, 1, min d.day (daysInMonth (d.year + 1) 1)⟩
  else ⟨d.year, d.month + 1, min d.day (daysInMonth d.year (d.month + 1))⟩

/-- Embedding of `d - timedelta(days=1)`: the previous calendar day. -/
def subDays1 (d : PDate) : PDate :=
  if 1 < d.day then ⟨d.year, d.month, d.day - 1⟩
  else if 1 < d.month then ⟨d.year, d.month - 1, daysInMonth d.year (d.month - 1)⟩
  else ⟨d.year - 1, 12, 31⟩

/-- Embedding of `month_range(year, month)` from app.py:
`first = date(year, month, 1)`, `last = first + relativedelta(months=1) - timedelta(days=1)`. -/
def month_range (year month : Int) : PDate × PDate :=
  let first : PDate := ⟨year, month, 1⟩
  (first, subDays1 (addMonths1 first))

/-- Days from 1970-01-01 of a Gregorian (year, month, day), the standard civil
calendar ordinal used here to model Python/pandas datetime order and arithmetic. -/
def daysFromCivil (y m d : Int) : Int :=
  let yy := if m ≤ 2 then y - 1 else y
  let era := (if 0 ≤ yy then yy else yy - 399) / 400
  let yoe := yy - era * 400
  let mp := if 2 < m then m - 3 else m + 9
  let doy := (153 * mp + 2) / 5 + d - 1
  let doe := yoe * 365 + yoe / 4 - yoe / 100 + doy
  era * 146097 + doe - 719468

/-- Inverse of `daysFromCivil`: the Gregorian (year, month, day) of a day
number counted from 1970-01-01. -/
def civilFromDays (z0 : Int) : Int × Int × Int :=
  let z := z0 + 719468
  let era := (if 0 ≤ z then z else z - 146096) / 146097
  let doe := z - era * 146097
  let yoe := (doe - doe / 1460 + doe / 36524 - doe / 146096) / 365
  let y := yoe + era * 400
  let doy := doe - (365 * yoe + yoe / 4 - yoe / 100)
  let mp := (5 * doy + 2) / 153
  let d := doy - (153 * mp + 2) / 5 + 1
  let m := if mp < 10 then mp + 3 else mp - 9
  (if m ≤ 2 then y + 1 else y, m, d)

/-- Embedding of `pd.Timestamp(d)` for a date `d`: seconds since the epoch at
midnight of that day (all timestamps in this model are integer seconds). -/
def secOfDate (d : PDate) : Int :=
  86400 * daysFromCivil d.year d.month d.day

/-- A full timestamp (seconds since the epoch) from calendar fields, i.e.
`datetime(y, m, d, h, minute)`. -/
def secOfDateTime (y m d h minute : Int) : Int :=
  secOfDate ⟨y, m, d⟩ + 3600 * h + 60 * minute

/-- Embedding of `datetime.combine(shift_date, t)` from app.py, with `t` given
as seconds into the day. -/
def combineDT (d : PDate) (t : Int) : Int :=
  secOfDate d + t

/-! ## Entities (app.py table rows) -/

/-- A time-of-day as stored in the providers table (`Time` column). -/
structure PTime where
  hour : Int
  minute : Int
  deriving DecidableEq, Repr

/-- A row of the `providers` table of app.py. -/
structure Provider where
  provider_id : String
  provider_name : String
  specialty : String
  preferred_shift_start : Option PTime
  preferred_shift_end : Option PTime
  preferred_days : String
  deriving DecidableEq, Repr

/-- A row of the `clients` table of app.py. -/
structure Client where
  client_id : String
  client_name : String
  location : String
  deriving DecidableEq, Repr

/-- A row of the `shifts` table of app.py; datetimes are seconds since epoch. -/
structure Shift where
  shift_id : String
  provider_id : String
  client_id : String
  start_datetime : Int
  end_datetime : Int
  shift_type : String
  notes : String
  deriving DecidableEq, Repr

/-! ## Shift mutation handlers (app.py forms) -/

/-- The row dict built by the `quick_add_shift` form handler in app.py:
`start_dt = datetime.combine(shift_date, start_t)`;
`end_dt = start_dt + timedelta(hours=24) if is_24h else datetime.combine(shift_date, end_t)`. -/
def quick_add_row (sid provider_id client_id : String) (shift_date : PDate)
    (start_t : Int) (is_24h : Bool) (end_t : Int) (shift_type notes : String) : Shift :=
  let start_dt := combineDT shift_date start_t
  let end_dt := if is_24h then start_dt + 24 * 3600 else combineDT shift_date end_t
  ⟨sid, provider_id, client_id, start_dt, end_dt, shift_type, notes⟩

/-- The `quick_add_shift` form handler in app.py: builds the row (with a
`generate_id`-minted id `sid`) and upserts it into the shifts table. -/
def quick_add_shift (sid provider_id client_id : String) (shift_date : PDate)
    (start_t : Int) (is_24h : Bool) (end_t : Int) (shift_type notes : String)
    (db : List Shift) : List Shift :=
  upsert (fun s => s.shift_id)
    (quick_add_row sid provider_id client_id shift_date start_t is_24h end_t shift_type notes) db

/-- The row dict built by the save/duplicate handlers (calendar tab and
`edit_shift_inline` tab) in app.py: `start_dt_new = datetime.combine(start_date, start_time)`;
if the 24-hour box is checked, `end_dt_new = start_dt_new + timedelta(hours=24)`,
else `end_dt_new = datetime.combine(end_date, end_time)`. -/
def edit_shift_row (rid provider_id client_id : String) (start_date : PDate)
    (start_time : Int) (is_24h : Bool) (end_date : PDate) (end_time : Int)
    (shift_type notes : String) : Shift :=
  let start_dt := combineDT start_date start_time
  let end_dt := if is_24h then start_dt + 24 * 3600 else combineDT end_date end_time
  ⟨rid, provider_id, client_id, start_dt, end_dt, shift_type, notes⟩

/-- The save/duplicate branch of `edit_shift_inline` in app.py: the row id is
`selected_id if save else generate_id("S")`, and the row is upserted. -/
def edit_shift_inline (save : Bool) (selected_id gen_id : String)
    (provider_id client_id : String) (start_date : PDate) (start_time : Int)
    (is_24h : Bool) (end_date : PDate) (end_time : Int) (shift_type notes : String)
    (db : List Shift) : List Shift :=
  upsert (fun s => s.shift_id)
    (edit_shift_row (if save then selected_id else gen_id) provider_id client_id
      start_date start_time is_24h end_date end_time shift_type notes) db

/-- The `add_provider` form handler in app.py: `if not pid or not pname`
(empty strings are falsy) an error is shown and nothing is written, else the
row is upserted keyed on `provider_id`. The preferred-time inputs stand for
the results of `parse_time` on the form strings. The Bool is `true` when the
write happened. -/
def add_provider_form (pid pname specialty : String)
    (pstart pend : Option PTime) (pdays : String)
    (db : List Provider) : List Provider × Bool :=
  if pid = "" ∨ pname = "" then (db, false)
  else (upsert (fun p => p.provider_id) ⟨pid, pname, specialty, pstart, pend, pdays⟩ db, true)

/-- The `add_client` form handler in app.py: `if not cid or not cname` an
error is shown and nothing is written, else the row is upserted keyed on
`client_id`. The Bool is `true` when the write happened. -/
def add_client_form (cid cname loc : String) (db : List Client) : List Client × Bool :=
  if cid = "" ∨ cname = "" then (db, false)
  else (upsert (fun c => c.client_id) ⟨cid, cname, loc⟩ db, true)

/-! ## 24-hour call classification (tab_calendar in app.py) -/

/-- Embedding of `duration_hours = (end - start).total_seconds() / 3600.0`. -/
def duration_hours (start_dt end_dt : Int) : ℚ :=
  ((end_dt - start_dt : Int) : ℚ) / 3600

/-- Embedding of the event-color classification `abs(duration_hours - 24.0) < 0.01`
from tab_calendar in app.py: `true` exactly when the shift is rendered as a
24-hour call shift. -/
def is_call24 (start_dt end_dt : Int) : Bool :=
  decide (|duration_hours start_dt end_dt - 24| < 1 / 100)

/-! ## Month filter (app.py, lines 311-315) -/

/-- Embedding of the month filter applied to `df_shifts` in app.py:
`start_datetime >= pd.Timestamp(first_day)` and
`end_datetime <= pd.Timestamp(last_day) + pd.Timedelta(days=1)`,
with `(first_day, last_day) = month_range(year, month)`. -/
def month_filter_keep (year month : Int) (sh : Shift) : Bool :=
  let r := month_range year month
  decide (secOfDate r.1 ≤ sh.start_datetime) &&
    decide (sh.end_datetime ≤ secOfDate r.2 + 86400)

/-! ## QGenda export (export_qgenda_csv in app.py)

The function builds a select statement `q`, then evaluates
`engine.begin().execute(q)` (app.py line 152). The engine is created with
`future=True` (SQLAlchemy >= 1.4 semantics), under which `Engine.begin()`
returns a context manager that has no `execute` attribute, so this first
expression raises `AttributeError` on every invocation: the query never runs,
the DataFrame is never built, and `to_csv` never writes. The runtime behavior
is `export_qgenda_csv_run`; the `..._attempted` definitions below embed the
query and serialization the dead code after that line specifies. -/

/-- A row of the export DataFrame that the rename/column-select in
`export_qgenda_csv` specifies (dead code at runtime): the nine external
columns, timestamps still datetimes. -/
structure QRow where
  providerID : String
  providerName : String
  clientID : String
  clientName : String
  location : String
  startDateTime : Int
  endDateTime : Int
  shiftType : String
  notes : String
  deriving DecidableEq, Repr

/-- The inner join of a shift with the providers and clients tables specified
by the select statement `q` of `export_qgenda_csv` (built but never executed
at runtime): `none` when either foreign key does not resolve (SQL inner join
drops the row). -/
def qgendaJoinRow (provs : List Provider) (clis : List Client) (sh : Shift) : Option QRow :=
  match provs.find? (fun p => decide (p.provider_id = sh.provider_id)),
        clis.find? (fun c => decide (c.client_id = sh.client_id)) with
  | some p, some c =>
      some ⟨sh.provider_id, p.provider_name, sh.client_id, c.client_name, c.location,
        sh.start_datetime, sh.end_datetime, sh.shift_type, sh.notes⟩
  | _, _ => none

/-- The WHERE clause of the select statement `q` in `export_qgenda_csv`:
`start_datetime >= start_dt AND end_datetime <= end_dt`. -/
def inExportRange (start_dt end_dt : Int) (sh : Shift) : Bool :=
  decide (start_dt ≤ sh.start_datetime) && decide (sh.end_datetime ≤ end_dt)

/-- The shift ordering of `ORDER BY shifts.start_datetime`. -/
def shiftStartLe (a b : Shift) : Prop :=
  a.start_datetime ≤ b.start_datetime

instance : DecidableRel shiftStartLe := fun _ _ => Int.decLe _ _

instance : IsTotal Shift shiftStartLe := ⟨fun _ _ => Int.le_total _ _⟩

instance : IsTrans Shift shiftStartLe := ⟨fun _ _ _ h1 h2 => Int.le_trans h1 h2⟩

/-- The export DataFrame that `export_qgenda_csv` attempts to build (dead
code: line 152 raises before the query runs): shifts in the requested range,
ordered by start ascending, inner-joined to provider and client names and
renamed to the external columns. -/
def export_qgenda_df_attempted (provs : List Provider) (clis : List Client)
    (shs : List Shift) (start_dt end_dt : Int) : List QRow :=
  (List.insertionSort shiftStartLe (shs.filter (inExportRange start_dt end_dt))).filterMap
    (qgendaJoinRow provs clis)

/-- Zero-pad a number to two digits, as fixed-width date fields print. -/
def pad2 (n : Nat) : String :=
  if n < 10 then "0" ++ toString n else toString n

/-- Zero-pad a number to four digits, as the year field prints. -/
def pad4 (n : Nat) : String :=
  if n < 10 then "000" ++ toString n
  else if n < 100 then "00" ++ toString n
  else if n < 1000 then "0" ++ toString n
  else toString n

/-- The string pandas writes for a datetime cell in `DataFrame.to_csv`
(`str(Timestamp)`): `YYYY-MM-DD HH:MM:SS`. `export_qgenda_csv` in app.py
applies no `strftime` to the datetime columns, so this is the serialization
its (never reached) `to_csv` call specifies. -/
def pandasTimestampStr (ts : Int) : String :=
  let ymd := civilFromDays (ts / 86400)
  let sod := (ts % 86400).toNat
  pad4 ymd.1.toNat ++ "-" ++ pad2 ymd.2.1.toNat ++ "-" ++ pad2 ymd.2.2.toNat ++ " " ++
    pad2 (sod / 3600) ++ ":" ++ pad2 (sod % 3600 / 60) ++ ":" ++ pad2 (sod % 60)

/-- The `MM/DD/YYYY HH:MM` (zero-padded, 24-hour clock) serialization that the
spec prescribes for the export's timestamp columns; written from the spec's
words, for comparison against the serialization the code actually produces. -/
def timestampSpecMMDDYYYY (ts : Int) : String :=
  let ymd := civilFromDays (ts / 86400)
  let sod := (ts % 86400).toNat
  pad2 ymd.2.1.toNat ++ "/" ++ pad2 ymd.2.2.toNat ++ "/" ++ pad4 ymd.1.toNat ++ " " ++
    pad2 (sod / 3600) ++ ":" ++ pad2 (sod % 3600 / 60)

/-- The fixed header row of the export file (which the attempted `to_csv`
would write also when the selection is empty, via the empty DataFrame with
these columns). -/
def qgendaHeaderLine : String :=
  "ProviderID,ProviderName,ClientID,ClientName,Location,StartDateTime,EndDateTime,ShiftType,Notes"

/-- Whether pandas `to_csv` (default `QUOTE_MINIMAL`) must quote a field: it
contains the separator, the quote character, or a line break. -/
def csvNeedsQuote (s : String) : Bool :=
  s.toList.any (fun c => c == ',' || c == '"' || c == '\n' || c == '\r')

/-- One CSV field as `DataFrame.to_csv` writes it (default `QUOTE_MINIMAL`):
wrapped in double quotes with inner quotes doubled when quoting is needed,
verbatim otherwise. -/
def csvField (s : String) : String :=
  if csvNeedsQuote s then
    "\"" ++ String.join (s.toList.map (fun c => if c == '"' then "\"\"" else String.singleton c)) ++ "\""
  else s

/-- One CSV data line of the export, as `DataFrame.to_csv` writes it. -/
def csvLineOfQRow (r : QRow) : String :=
  String.intercalate ","
    ([r.providerID, r.providerName, r.clientID, r.clientName, r.location,
      pandasTimestampStr r.startDateTime, pandasTimestampStr r.endDateTime,
      r.shiftType, r.notes].map csvField)

/-- The full CSV that the `to_csv` call of `export_qgenda_csv` would write
(dead code: line 152 raises first): the fixed header line followed by one
line per exported row. -/
def export_qgenda_csv_attempted (provs : List Provider) (clis : List Client)
    (shs : List Shift) (start_dt end_dt : Int) : List String :=
  qgendaHeaderLine :: (export_qgenda_df_attempted provs clis shs start_dt end_dt).map csvLineOfQRow

/-- A Python exception raised by the embedded code, carrying the name of the
missing attribute. -/
inductive PyError where
  | attributeError : String → PyError
  deriving DecidableEq, Repr

/-- Runtime behavior of `export_qgenda_csv(conn, start_dt, end_dt)` in app.py:
the first expression evaluated is `engine.begin().execute(q)` (line 152);
under `future=True` (SQLAlchemy >= 1.4), `Engine.begin()` returns a context
manager with no `execute` attribute, so every invocation raises
`AttributeError` before the query runs, before the DataFrame is built, and
before `to_csv` writes anything (the `conn` parameter is never used). The
store and range arguments are kept to show the failure is independent of
them; the dead code after the raising line is `export_qgenda_csv_attempted`. -/
def export_qgenda_csv_run (_provs : List Provider) (_clis : List Client)
    (_shs : List Shift) (_start_dt _end_dt : Int) : Except PyError (List String) :=
  Except.error (PyError.attributeError "execute")

/-! ## JSON-backed variant (streamlit_app.py) -/

/-- A shift record of the JSON-backed app (streamlit_app.py): integer ids,
optional provider assignment, date and times kept as the strings the app
serializes. -/
structure JShift where
  id : Int
  site_id : Int
  provider_id : Option Int
  date : String
  start_time : String
  end_time : String
  deriving DecidableEq, Repr

/-- Python's `max(l, default=d)`: the maximum of the list, or `d` when the
list is empty (the default is ignored for a non-empty list). -/
def pyMax (l : List Int) (dflt : Int) : Int :=
  match l with
  | [] => dflt
  | x :: xs => xs.foldl max x

/-- The id minted by the create-shift form in streamlit_app.py:
`max([s["id"] for s in shifts], default=0) + 1`. -/
def new_shift_id (shs : List JShift) : Int :=
  pyMax (shs.map (fun s => s.id)) 0 + 1

/-- The create-shift form handler of `page_shifts` in streamlit_app.py:
appends the new record (with the minted id) and saves the collection. -/
def create_shift (shs : List JShift) (site_id : Int) (provider_id : Option Int)
    (d stt ent : String) : List JShift :=
  shs ++ [⟨new_shift_id shs, site_id, provider_id, d, stt, ent⟩]

/-! ## Example records (the spec's §8 scenario data) -/

/-- The example provider P001 from the CSV template in app.py. -/
def exProvider : Provider :=
  ⟨"P001", "Dr. Alice Stone", "Cardiology", some ⟨8, 0⟩, some ⟨16, 0⟩, "Mon,Tue,Wed"⟩

/-- The example client C001 from the CSV template in app.py, location
`Austin, TX` (the comma forces CSV quoting of the Location field). -/
def exClient : Client := ⟨"C001", "Riverside Hospital", "Austin, TX"⟩

/-- The example shift S001: 2025-01-10 08:00 to 2025-01-10 16:00, type Day. -/
def exShift : Shift :=
  ⟨"S001", "P001", "C001", secOfDateTime 2025 1 10 8 0, secOfDateTime 2025 1 10 16 0, "Day", ""⟩

/-- Export range start used in the concrete export statements: 2025-01-01 00:00. -/
def exportStartJan2025 : Int := secOfDateTime 2025 1 1 0 0

/-- Export range end used in the concrete export statements: 2025-01-31 23:59. -/
def exportEndJan2025 : Int := secOfDateTime 2025 1 31 23 59

/-! ## Characterization of the 24-hour classification -/

/-- The float test `abs(duration_hours - 24.0) < 0.01` holds exactly when the
timestamp difference lies strictly between 86400 - 36 and 86400 + 36 seconds. -/
theorem is_call24_iff_seconds (s e : Int) :
    is_call24 s e = true ↔ 86364 < e - s ∧ e - s < 86436 := by
  simp only [is_call24, duration_hours, decide_eq_true_eq]
  have key : ((e - s : Int) : ℚ) / 3600 - 24 = ((e - s - 86400 : Int) : ℚ) / 3600 := by
    push_cast
    ring
  rw [key, abs_div, abs_of_nonneg (show (0 : ℚ) ≤ 3600 by norm_num),
    div_lt_iff₀ (show (0 : ℚ) < 3600 by norm_num), ← Int.cast_abs]
  have h36 : (1 : ℚ) / 100 * 3600 = ((36 : Int) : ℚ) := by norm_num
  rw [h36, Int.cast_lt, abs_lt]
  omega

/-! ## Claims -/

/-- C1, counterexample: `quick_add_shift` with the 24-hour box unchecked,
start 16:00 and end 08:00 on the same date persists a shift whose
`end_datetime` is strictly before its `start_datetime`; no add/edit/duplicate
handler in app.py validates `end > start` before upserting. -/
theorem quick_add_persists_end_before_start :
    (quick_add_shift "S_20250110120000000000" "P001" "C001" ⟨2025, 1, 10⟩ (16 * 3600)
        false (8 * 3600) "Day" "" []) ≠ []
    ∧ (quick_add_shift "S_20250110120000000000" "P001" "C001" ⟨2025, 1, 10⟩ (16 * 3600)
        false (8 * 3600) "Day" "" []).all
        (fun sh => decide (sh.end_datetime < sh.start_datetime)) = true := by
  constructor
  · decide
  · decide

/-- C1, amended: when the 24-hour toggle is set, the row built by the add and
edit/duplicate handlers satisfies `end_datetime = start_datetime + 24h`, hence
`end > start`; when an explicit end time is supplied, the handlers perform no
`end > start` validation and upsert the row exactly as computed, so a record
with `end_datetime <= start_datetime` can be persisted. -/
theorem shift_write_end_start_status :
    (∀ sid pid cid (d : PDate) (st_t et : Int) (ty no : String),
      (quick_add_row sid pid cid d st_t true et ty no).end_datetime =
        (quick_add_row sid pid cid d st_t true et ty no).start_datetime + 24 * 3600
      ∧ (quick_add_row sid pid cid d st_t true et ty no).start_datetime <
        (quick_add_row sid pid cid d st_t true et ty no).end_datetime)
    ∧ (∀ rid pid cid (sd : PDate) (st_t : Int) (ed : PDate) (et : Int) (ty no : String),
      (edit_shift_row rid pid cid sd st_t true ed et ty no).end_datetime =
        (edit_shift_row rid pid cid sd st_t true ed et ty no).start_datetime + 24 * 3600
      ∧ (edit_shift_row rid pid cid sd st_t true ed et ty no).start_datetime <
        (edit_shift_row rid pid cid sd st_t true ed et ty no).end_datetime)
    ∧ (∀ sid pid cid (d : PDate) (st_t et : Int) (ty no : String) (db : List Shift),
      quick_add_shift sid pid cid d st_t false et ty no db =
        upsert (fun s => s.shift_id)
          ⟨sid, pid, cid, combineDT d st_t, combineDT d et, ty, no⟩ db)
    ∧ (quick_add_shift "S_20250110120000000000" "P001" "C001" ⟨2025, 1, 10⟩ (16 * 3600)
        false (8 * 3600) "Day" "" []).all
        (fun sh => decide (sh.end_datetime < sh.start_datetime)) = true := by
  refine ⟨?_, ?_, ?_, by decide⟩
  · intro sid pid cid d st_t et ty no
    constructor
    · rfl
    · show combineDT d st_t < combineDT d st_t + 24 * 3600
      omega
  · intro rid pid cid sd st_t ed et ty no
    constructor
    · rfl
    · show combineDT sd st_t < combineDT sd st_t + 24 * 3600
      omega
  · intro sid pid cid d st_t et ty no db
    rfl

/-- C2, counterexample: a shift whose duration is 24 hours plus one minute
(86460 s) or minus one minute (86340 s) is NOT classified as a 24-hour call
shift, because one minute exceeds the 0.01-hour (36 s) tolerance of
`abs(duration_hours - 24.0) < 0.01`. -/
theorem call24_one_minute_not_classified :
    is_call24 0 86460 = false ∧ is_call24 0 86340 = false := by
  constructor
  · rw [← Bool.not_eq_true, is_call24_iff_seconds]
    decide
  · rw [← Bool.not_eq_true, is_call24_iff_seconds]
    decide

/-- C2, amended: a shift is classified as a 24-hour call shift exactly when
its timestamp difference is within the 0.01-hour epsilon (strictly less than
36 seconds) of 24 hours; so 24h + 30s is classified, 24h ± 1 minute is not,
and 23h is not; the classification is derived from the timestamp difference,
not from a stored flag. -/
theorem call24_classification_correct :
    (∀ s e : Int, is_call24 s e = true ↔ 86364 < e - s ∧ e - s < 86436)
    ∧ is_call24 0 86430 = true
    ∧ is_call24 0 86460 = false
    ∧ is_call24 0 (23 * 3600) = false := by
  refine ⟨is_call24_iff_seconds, ?_, ?_, ?_⟩
  · rw [is_call24_iff_seconds]
    decide
  · rw [← Bool.not_eq_true, is_call24_iff_seconds]
    decide
  · rw [← Bool.not_eq_true, is_call24_iff_seconds]
    decide

/-- C3, counterexample: invoking the export on the example shift (2025-01-10
08:00) raises AttributeError and serializes nothing, so no `01/10/2025 08:00`
field is ever produced; moreover the serialization the function attempts
(pandas `to_csv` with no strftime) gives the default `2025-01-10 08:00:00`,
which differs from the `01/10/2025 08:00` of the MM/DD/YYYY HH:MM spec
format. -/
theorem export_timestamp_not_mmddyyyy :
    export_qgenda_csv_run [exProvider] [exClient] [exShift] exportStartJan2025 exportEndJan2025 =
      Except.error (PyError.attributeError "execute")
    ∧ (export_qgenda_df_attempted [exProvider] [exClient] [exShift]
        exportStartJan2025 exportEndJan2025).map
        (fun r => pandasTimestampStr r.startDateTime) = ["2025-01-10 08:00:00"]
    ∧ timestampSpecMMDDYYYY (secOfDateTime 2025 1 10 8 0) = "01/10/2025 08:00"
    ∧ pandasTimestampStr (secOfDateTime 2025 1 10 8 0) ≠
        timestampSpecMMDDYYYY (secOfDateTime 2025 1 10 8 0) := by
  refine ⟨rfl, by decide, by decide, by decide⟩

/-- C3, amended: `export_qgenda_csv` never serializes any timestamp: every
invocation raises AttributeError at `engine.begin().execute(q)` (app.py line
152) before anything is written; and the serialization its dead code
specifies is the pandas default `YYYY-MM-DD HH:MM:SS` (no strftime), not
`MM/DD/YYYY HH:MM` — for the example shift from 2025-01-10 08:00 to 16:00 it
would write the row `P001,Dr. Alice Stone,C001,Riverside Hospital,"Austin,
TX",2025-01-10 08:00:00,2025-01-10 16:00:00,Day,` (Location quoted for its
comma). -/
theorem export_never_serializes_attempted_iso :
    (∀ (provs : List Provider) (clis : List Client) (shs : List Shift) (s e : Int),
      export_qgenda_csv_run provs clis shs s e =
        Except.error (PyError.attributeError "execute"))
    ∧ export_qgenda_csv_attempted [exProvider] [exClient] [exShift]
        exportStartJan2025 exportEndJan2025 =
      [qgendaHeaderLine,
       "P001,Dr. Alice Stone,C001,Riverside Hospital,\"Austin, TX\",2025-01-10 08:00:00,2025-01-10 16:00:00,Day,"] := by
  exact ⟨fun _ _ _ _ _ => rfl, by decide⟩

/-- Field content of a successfully joined export row. -/
theorem qgendaJoinRow_fields {provs : List Provider} {clis : List Client}
    {sh : Shift} {r : QRow} (h : qgendaJoinRow provs clis sh = some r) :
    r.providerID = sh.provider_id ∧ r.clientID = sh.client_id
    ∧ r.startDateTime = sh.start_datetime ∧ r.endDateTime = sh.end_datetime
    ∧ r.shiftType = sh.shift_type ∧ r.notes = sh.notes := by
  unfold qgendaJoinRow at h
  split at h
  · injection h with h'
    subst h'
    exact ⟨rfl, rfl, rfl, rfl, rfl, rfl⟩
  · cases h

/-- Selection, join, ordering and header semantics of the export DataFrame
and CSV that `export_qgenda_csv` attempts to build. This is dead code at
runtime — line 152 raises before the query executes (see
`export_qgenda_csv_run`) — and is proven only to document what the statement
`q` and the `to_csv` call specify: header line first (also on an empty
selection), data rows exactly the in-range shifts inner-joined to names, and
rows ordered by start ascending. -/
theorem export_attempted_semantics (provs : List Provider) (clis : List Client)
    (shs : List Shift) (start_dt end_dt : Int)
    (hp : ∀ sh ∈ shs, ∃ p ∈ provs, p.provider_id = sh.provider_id)
    (hc : ∀ sh ∈ shs, ∃ c ∈ clis, c.client_id = sh.client_id) :
    (export_qgenda_csv_attempted provs clis shs start_dt end_dt).head? = some qgendaHeaderLine
    ∧ (export_qgenda_df_attempted provs clis shs start_dt end_dt).Perm
        ((shs.filter (inExportRange start_dt end_dt)).filterMap (qgendaJoinRow provs clis))
    ∧ (∀ sh ∈ shs, inExportRange start_dt end_dt sh = true →
        ∃ r ∈ export_qgenda_df_attempted provs clis shs start_dt end_dt,
          qgendaJoinRow provs clis sh = some r)
    ∧ (export_qgenda_df_attempted provs clis shs start_dt end_dt).Pairwise
        (fun a b => a.startDateTime ≤ b.startDateTime) := by
  refine ⟨rfl, ?_, ?_, ?_⟩
  · exact List.Perm.filterMap _ (List.perm_insertionSort shiftStartLe _)
  · intro sh hm hr
    obtain ⟨p, hpm, hpe⟩ := hp sh hm
    obtain ⟨c, hcm, hce⟩ := hc sh hm
    have hfp : (provs.find? (fun p => decide (p.provider_id = sh.provider_id))).isSome :=
      List.find?_isSome.mpr ⟨p, hpm, by simp [hpe]⟩
    have hfc : (clis.find? (fun c => decide (c.client_id = sh.client_id))).isSome :=
      List.find?_isSome.mpr ⟨c, hcm, by simp [hce]⟩
    obtain ⟨pr, hpr⟩ := Option.isSome_iff_exists.mp hfp
    obtain ⟨cr, hcr⟩ := Option.isSome_iff_exists.mp hfc
    have hjoin : qgendaJoinRow provs clis sh =
        some ⟨sh.provider_id, pr.provider_name, sh.client_id, cr.client_name, cr.location,
          sh.start_datetime, sh.end_datetime, sh.shift_type, sh.notes⟩ := by
      unfold qgendaJoinRow
      rw [hpr, hcr]
    have hfilter : sh ∈ shs.filter (inExportRange start_dt end_dt) :=
      List.mem_filter.mpr ⟨hm, hr⟩
    have hsort : sh ∈ List.insertionSort shiftStartLe (shs.filter (inExportRange start_dt end_dt)) :=
      (List.perm_insertionSort shiftStartLe _).mem_iff.mpr hfilter
    exact ⟨_, List.mem_filterMap.mpr ⟨sh, hsort, hjoin⟩, hjoin⟩
  · have hsorted : List.Pairwise shiftStartLe
        (List.insertionSort shiftStartLe (shs.filter (inExportRange start_dt end_dt))) :=
      List.sorted_insertionSort shiftStartLe _
    rw [export_qgenda_df_attempted, List.pairwise_filterMap]
    refine hsorted.imp ?_
    intro a b hab x hx y hy
    rw [Option.mem_def] at hx hy
    rw [(qgendaJoinRow_fields hx).2.2.1, (qgendaJoinRow_fields hy).2.2.1]
    exact hab

/-- C4, code bug: `export_qgenda_csv` never returns a CSV. Its first
evaluated expression, `engine.begin().execute(q)` at app.py line 152, raises
AttributeError on every invocation under the engine's own `future=True`
configuration (`Engine.begin()` returns a context manager with no `execute`
attribute; the `conn` parameter is ignored), so the selection, join, ordering
and header the claim describes are never performed — in particular at the
example store over January 2025. -/
theorem export_run_always_attributeerror :
    (∀ (provs : List Provider) (clis : List Client) (shs : List Shift) (s e : Int),
      export_qgenda_csv_run provs clis shs s e =
        Except.error (PyError.attributeError "execute"))
    ∧ export_qgenda_csv_run [exProvider] [exClient] [exShift]
        exportStartJan2025 exportEndJan2025 =
      Except.error (PyError.attributeError "execute")
    ∧ (∀ (out : List String),
      export_qgenda_csv_run [exProvider] [exClient] [exShift]
        exportStartJan2025 exportEndJan2025 ≠ Except.ok out) :=
  ⟨fun _ _ _ _ _ => rfl, rfl, fun _ h => by cases h⟩

/-- C5: for a shift satisfying the `end > start` invariant, the month filter
of app.py keeps it exactly when its start timestamp falls within the month
window `[first_day 00:00, last_day 24:00)` and, as the observed variant
additionally requires, its end timestamp is at most
`pd.Timestamp(last_day) + 1 day` (which equals `last_day 24:00`). -/
theorem month_filter_window (year month : Int) (sh : Shift)
    (h : sh.start_datetime < sh.end_datetime) :
    month_filter_keep year month sh = true ↔
      (secOfDate (month_range year month).1 ≤ sh.start_datetime
       ∧ sh.start_datetime < secOfDate (month_range year month).2 + 86400
       ∧ sh.end_datetime ≤ secOfDate (month_range year month).2 + 86400) := by
  unfold month_filter_keep
  simp only [Bool.and_eq_true, decide_eq_true_eq]
  constructor
  · rintro ⟨h1, h2⟩
    exact ⟨h1, lt_of_lt_of_le h h2, h2⟩
  · rintro ⟨h1, _, h3⟩
    exact ⟨h1, h3⟩

/-- C5, witness: an 8-hour shift starting at 2025-01-01 00:00 is kept by the
January 2025 filter, and an 8-hour shift starting one second earlier is not. -/
theorem month_filter_window_witness :
    month_filter_keep 2025 1
      ⟨"S1", "P001", "C001", secOfDate ⟨2025, 1, 1⟩, secOfDate ⟨2025, 1, 1⟩ + 28800, "Day", ""⟩ = true
    ∧ month_filter_keep 2025 1
      ⟨"S2", "P001", "C001", secOfDate ⟨2025, 1, 1⟩ - 1, secOfDate ⟨2025, 1, 1⟩ - 1 + 28800, "Day", ""⟩ = false := by
  constructor
  · exact (month_filter_window 2025 1 _ (by decide)).mpr (by decide)
  · rw [← Bool.not_eq_true, month_filter_window 2025 1 _ (by decide)]
    decide

/-- C6: for every collection and record, `upsert` replaces the row under the
record's key in full (a lookup then returns exactly the new record), leaves
every other key's lookup unchanged, inserts by appending when no row with the
key exists, and is idempotent: upserting the same record twice equals
upserting it once. -/
theorem upsert_whole_row_idempotent {α : Type} (key : α → String) (row : α) (l : List α) :
    getByKey key (key row) (upsert key row l) = some row
    ∧ (∀ k, k ≠ key row → getByKey key k (upsert key row l) = getByKey key k l)
    ∧ (l.all (fun x => decide (key x ≠ key row)) = true → upsert key row l = l ++ [row])
    ∧ upsert key row (upsert key row l) = upsert key row l :=
  ⟨getByKey_upsert_self key row l,
   fun k hk => getByKey_upsert_ne key row l k hk,
   fun h => upsert_of_absent key row l h,
   upsert_idem key row l⟩

/-- C6, witness: the upsert semantics evaluated on the example client
collection. -/
theorem upsert_whole_row_idempotent_witness :
    getByKey (fun c : Client => c.client_id) exClient.client_id
        (upsert (fun c : Client => c.client_id) exClient [exClient]) = some exClient
    ∧ getByKey (fun c : Client => c.client_id) "C999"
        (upsert (fun c : Client => c.client_id) exClient [exClient]) =
      getByKey (fun c : Client => c.client_id) "C999" [exClient]
    ∧ upsert (fun c : Client => c.client_id) exClient [] = [] ++ [exClient]
    ∧ upsert (fun c : Client => c.client_id) exClient
        (upsert (fun c : Client => c.client_id) exClient [exClient]) =
      upsert (fun c : Client => c.client_id) exClient [exClient] := by
  have h := upsert_whole_row_idempotent (fun c : Client => c.client_id) exClient [exClient]
  have h0 := upsert_whole_row_idempotent (fun c : Client => c.client_id) exClient []
  exact ⟨h.1, h.2.1 "C999" (by decide), h0.2.2.1 (by decide), h.2.2.2⟩

/-- C7: the duplicate branch of the edit form writes the row under the
freshly minted `generate_id("S")` id; provided that id differs from the
source id (distinct format/clock reading), the source record's lookup is
unchanged field-for-field and the new id's lookup returns exactly the
duplicated row. -/
theorem duplicate_shift_fresh_id_frame (ts selected_id provider_id client_id : String)
    (start_date : PDate) (start_time : Int) (is_24h : Bool) (end_date : PDate)
    (end_time : Int) (shift_type notes : String) (db : List Shift) (orig : Shift)
    (hne : generate_id "S" ts ≠ selected_id)
    (horig : getByKey (fun s => s.shift_id) selected_id db = some orig) :
    getByKey (fun s => s.shift_id) selected_id
        (edit_shift_inline false selected_id (generate_id "S" ts) provider_id client_id
          start_date start_time is_24h end_date end_time shift_type notes db) = some orig
    ∧ getByKey (fun s => s.shift_id) (generate_id "S" ts)
        (edit_shift_inline false selected_id (generate_id "S" ts) provider_id client_id
          start_date start_time is_24h end_date end_time shift_type notes db) =
      some (edit_shift_row (generate_id "S" ts) provider_id client_id start_date start_time
        is_24h end_date end_time shift_type notes) := by
  constructor
  · rw [edit_shift_inline, getByKey_upsert_ne]
    · exact horig
    · exact fun hh => hne (hh.symm)
  · show getByKey (fun s => s.shift_id) (generate_id "S" ts)
        (upsert (fun s => s.shift_id)
          (edit_shift_row (generate_id "S" ts) provider_id client_id start_date start_time
            is_24h end_date end_time shift_type notes) db) =
      some (edit_shift_row (generate_id "S" ts) provider_id client_id start_date start_time
        is_24h end_date end_time shift_type notes)
    have h := getByKey_upsert_self (fun s => s.shift_id)
      (edit_shift_row (generate_id "S" ts) provider_id client_id start_date start_time
        is_24h end_date end_time shift_type notes) db
    simpa [edit_shift_row] using h

/-- C7, witness: duplicating the example shift S001 under a timestamp id
leaves S001's record untouched and stores the duplicate under the new id. -/
theorem duplicate_shift_fresh_id_frame_witness :
    getByKey (fun s => s.shift_id) "S001"
        (edit_shift_inline false "S001" (generate_id "S" "20250110120000000000") "P001" "C001"
          ⟨2025, 1, 10⟩ 28800 false ⟨2025, 1, 10⟩ 57600 "Day" "" [exShift]) = some exShift
    ∧ getByKey (fun s => s.shift_id) (generate_id "S" "20250110120000000000")
        (edit_shift_inline false "S001" (generate_id "S" "20250110120000000000") "P001" "C001"
          ⟨2025, 1, 10⟩ 28800 false ⟨2025, 1, 10⟩ 57600 "Day" "" [exShift]) =
      some (edit_shift_row (generate_id "S" "20250110120000000000") "P001" "C001"
        ⟨2025, 1, 10⟩ 28800 false ⟨2025, 1, 10⟩ 57600 "Day" "") :=
  duplicate_shift_fresh_id_frame "20250110120000000000" "S001" "P001" "C001"
    ⟨2025, 1, 10⟩ 28800 false ⟨2025, 1, 10⟩ 57600 "Day" "" [exShift] exShift
    (by decide) (by decide)

/-- C8: the add-provider and add-client forms require a non-empty id and a
non-empty name; when either is empty the handler returns with an error and
the store is unchanged (no partial write), otherwise the record is upserted
and is retrievable under its id. -/
theorem add_forms_require_id_and_name
    (pid pname specialty : String) (pstart pend : Option PTime) (pdays : String)
    (dbp : List Provider) (cid cname loc : String) (dbc : List Client) :
    (pid = "" ∨ pname = "" →
      add_provider_form pid pname specialty pstart pend pdays dbp = (dbp, false))
    ∧ (pid ≠ "" → pname ≠ "" →
      add_provider_form pid pname specialty pstart pend pdays dbp =
        (upsert (fun p => p.provider_id) ⟨pid, pname, specialty, pstart, pend, pdays⟩ dbp, true)
      ∧ getByKey (fun p => p.provider_id) pid
          (add_provider_form pid pname specialty pstart pend pdays dbp).1 =
        some ⟨pid, pname, specialty, pstart, pend, pdays⟩)
    ∧ (cid = "" ∨ cname = "" → add_client_form cid cname loc dbc = (dbc, false))
    ∧ (cid ≠ "" → cname ≠ "" →
      add_client_form cid cname loc dbc =
        (upsert (fun c => c.client_id) ⟨cid, cname, loc⟩ dbc, true)
      ∧ getByKey (fun c => c.client_id) cid (add_client_form cid cname loc dbc).1 =
        some ⟨cid, cname, loc⟩) := by
  refine ⟨?_, ?_, ?_, ?_⟩
  · intro h
    rw [add_provider_form, if_pos h]
  · intro h1 h2
    have hcond : ¬ (pid = "" ∨ pname = "") := by tauto
    constructor
    · rw [add_provider_form, if_neg hcond]
    · rw [add_provider_form, if_neg hcond]
      exact getByKey_upsert_self (fun p : Provider => p.provider_id)
        ⟨pid, pname, specialty, pstart, pend, pdays⟩ dbp
  · intro h
    rw [add_client_form, if_pos h]
  · intro h1 h2
    have hcond : ¬ (cid = "" ∨ cname = "") := by tauto
    constructor
    · rw [add_client_form, if_neg hcond]
    · rw [add_client_form, if_neg hcond]
      exact getByKey_upsert_self (fun c : Client => c.client_id) ⟨cid, cname, loc⟩ dbc

/-- C8, witness: an empty provider id aborts with no write; a full provider
is stored; an empty client name aborts with no write; a full client is
stored. -/
theorem add_forms_require_id_and_name_witness :
    add_provider_form "" "Dr. Alice Stone" "" none none "" [] = ([], false)
    ∧ getByKey (fun p : Provider => p.provider_id) "P001"
        (add_provider_form "P001" "Dr. Alice Stone" "Cardiology" none none "Mon,Tue,Wed" []).1 =
      some ⟨"P001", "Dr. Alice Stone", "Cardiology", none, none, "Mon,Tue,Wed"⟩
    ∧ add_client_form "C001" "" "Austin TX" [] = ([], false)
    ∧ getByKey (fun c : Client => c.client_id) "C001"
        (add_client_form "C001" "Riverside Hospital" "Austin TX" []).1 =
      some ⟨"C001", "Riverside Hospital", "Austin TX"⟩ := by
  have ha := add_forms_require_id_and_name "" "Dr. Alice Stone" "" none none "" []
    "C001" "" "Austin TX" []
  have hb := add_forms_require_id_and_name "P001" "Dr. Alice Stone" "Cardiology" none none
    "Mon,Tue,Wed" [] "C001" "Riverside Hospital" "Austin TX" []
  exact ⟨ha.1 (Or.inl rfl), (hb.2.1 (by decide) (by decide)).2,
    ha.2.2.1 (Or.inr rfl), (hb.2.2.2 (by decide) (by decide)).2⟩

/-- Every month length is at least one day. -/
theorem daysInMonth_pos (y m : Int) : 1 ≤ daysInMonth y m := by
  unfold daysInMonth
  split_ifs <;> norm_num

/-- C9: for every year and every month between 1 and 12, `month_range`
returns the 1st of the month and the last calendar day of that month (the
day before the 1st of the following month), across month lengths and
leap-year Februaries. -/
theorem month_range_first_last (y m : Int) (h1 : 1 ≤ m) (h2 : m ≤ 12) :
    month_range y m = (⟨y, m, 1⟩, ⟨y, m, daysInMonth y m⟩) := by
  have hmin : ∀ (a b : Int), min (1 : Int) (daysInMonth a b) = 1 :=
    fun a b => min_eq_left (daysInMonth_pos a b)
  by_cases h12 : m = 12
  · subst h12
    have ha : addMonths1 ⟨y, 12, 1⟩ = ⟨y + 1, 1, 1⟩ := by
      rw [addMonths1]
      simp [hmin]
    have hs : subDays1 ⟨y + 1, 1, 1⟩ = ⟨y, 12, 31⟩ := by
      rw [subDays1]
      norm_num
    have hd : daysInMonth y 12 = 31 := by
      rw [daysInMonth]
      norm_num
    rw [month_range]
    rw [ha, hs, hd]
  · have hlt : (1 : Int) < m + 1 := by omega
    have ha : addMonths1 ⟨y, m, 1⟩ = ⟨y, m + 1, 1⟩ := by
      rw [addMonths1]
      simp [h12, hmin]
    have hs : subDays1 ⟨y, m + 1, 1⟩ = ⟨y, m, daysInMonth y m⟩ := by
      rw [subDays1]
      norm_num [hlt]
    rw [month_range]
    rw [ha, hs]

/-- C9, witness: February 2024 (a leap year) runs from the 1st to the 29th. -/
theorem month_range_first_last_witness :
    month_range 2024 2 = (⟨2024, 2, 1⟩, ⟨2024, 2, 29⟩) := by
  rw [month_range_first_last 2024 2 (by decide) (by decide)]
  decide

/-- The seed of a left max-fold is bounded by the fold. -/
theorem foldl_max_le_self (xs : List Int) (a : Int) : a ≤ xs.foldl max a := by
  induction xs generalizing a with
  | nil => exact le_refl a
  | cons x xs ih => exact le_trans (le_max_left a x) (ih (max a x))

/-- Every member of a list is bounded by a left max-fold over it. -/
theorem mem_le_foldl_max (xs : List Int) (a : Int) : ∀ y ∈ xs, y ≤ xs.foldl max a := by
  induction xs generalizing a with
  | nil =>
    intro y hy
    simp at hy
  | cons x xs ih =>
    intro y hy
    rcases List.mem_cons.mp hy with rfl | hy'
    · exact le_trans (le_max_right a y) (foldl_max_le_self xs (max a y))
    · exact ih (max a x) y hy'

/-- Every member of a list is bounded by its Python max. -/
theorem le_pyMax (l : List Int) (dflt : Int) : ∀ y ∈ l, y ≤ pyMax l dflt := by
  intro y hy
  cases l with
  | nil => simp at hy
  | cons x xs =>
    rcases List.mem_cons.mp hy with rfl | hy'
    · exact foldl_max_le_self xs y
    · exact mem_le_foldl_max xs x y hy'

/-- C10: the JSON-backed create-shift form mints `max(ids) + 1` (1 on an
empty collection), so the new id is strictly greater than every id present
at creation time, and creating a shift preserves id uniqueness of the
collection. -/
theorem create_shift_id_unique (shs : List JShift) (site_id : Int)
    (provider_id : Option Int) (d stt ent : String) :
    (shs = [] → new_shift_id shs = 1)
    ∧ (∀ s ∈ shs, s.id < new_shift_id shs)
    ∧ ((shs.map (fun s => s.id)).Nodup →
        ((create_shift shs site_id provider_id d stt ent).map (fun s => s.id)).Nodup) := by
  refine ⟨?_, ?_, ?_⟩
  · rintro rfl
    rfl
  · intro s hs
    have hle : s.id ≤ pyMax (shs.map (fun s => s.id)) 0 :=
      le_pyMax _ 0 s.id (List.mem_map.mpr ⟨s, hs, rfl⟩)
    unfold new_shift_id
    omega
  · intro hnd
    unfold create_shift
    rw [List.map_append, List.nodup_append]
    refine ⟨hnd, by simp, ?_⟩
    intro a ha hb
    simp only [List.map_cons, List.map_nil, List.mem_singleton] at hb
    have hle : a ≤ pyMax (shs.map (fun s => s.id)) 0 := le_pyMax _ 0 a ha
    rw [hb] at hle
    unfold new_shift_id at hle
    omega

/-- C10, witness: on a collection holding id 5, the minted id is 6, is larger
than 5, and the created collection keeps distinct ids; on the empty
collection the minted id is 1. -/
theorem create_shift_id_unique_witness :
    new_shift_id ([] : List JShift) = 1
    ∧ (⟨5, 1, none, "2025-01-10", "08:00", "16:00"⟩ : JShift).id <
        new_shift_id [⟨5, 1, none, "2025-01-10", "08:00", "16:00"⟩]
    ∧ ((create_shift [⟨5, 1, none, "2025-01-10", "08:00", "16:00"⟩] 1 none
        "2025-01-11" "08:00" "16:00").map (fun s => s.id)).Nodup := by
  have h0 := create_shift_id_unique ([] : List JShift) 1 none "2025-01-11" "08:00" "16:00"
  have h1 := create_shift_id_unique [(⟨5, 1, none, "2025-01-10", "08:00", "16:00"⟩ : JShift)]
    1 none "2025-01-11" "08:00" "16:00"
  exact ⟨h0.1 rfl, h1.2.1 _ (by decide), h1.2.2 (by decide)⟩
